import Mathlib

/-!
Verification development for the `fell` process monitor's sampling and
delta-computation engine.

The Rust source is shallowly embedded:
* `u64` counters become `Nat` with explicit wrapping (`% 2 ^ 64`) where Rust
  release-mode overflow semantics matter (debug builds would panic instead;
  each such site is noted in a comment);
* `f64` / `f32` arithmetic is modelled over `ℚ`.  One caveat: IEEE division
  by zero yields `±inf`/`NaN` while `ℚ` division by zero yields `0`; every
  theorem about a numeric result therefore either assumes a nonzero
  denominator or only speaks about the `Option` structure of the result;
* `HashMap` state becomes a function map `Int → Option α` (pids are `i32`,
  modelled as `Int`); mutation becomes explicit state passing;
* file / channel reads become explicit inputs (`Option` for fallible reads,
  a `List String` for a file read line by line).
-/

/-- The modulus `2 ^ 64` of Rust `u64` / (64-bit) `usize` arithmetic. -/
def U64 : Nat := 2 ^ 64

/-- Rust `u64` subtraction `a - b` in release mode: wraps modulo `2 ^ 64`
(a debug build would panic on underflow).  Callers pass `a < U64`. -/
def u64sub (a b : Nat) : Nat := (a + U64 - b % U64) % U64

/-- Rust `u64::saturating_add`. -/
def u64sadd (a b : Nat) : Nat := if a + b < U64 then a + b else U64 - 1

theorem u64sub_of_le {a b : Nat} (hba : b ≤ a) (ha : a < U64) : u64sub a b = a - b := by
  unfold u64sub
  have hb : b % U64 = b := Nat.mod_eq_of_lt (lt_of_le_of_lt hba ha)
  rw [hb]
  have h1 : a + U64 - b = (a - b) + U64 := by omega
  rw [h1, Nat.add_mod_right]
  exact Nat.mod_eq_of_lt (by omega)

theorem u64sadd_of_lt {a b : Nat} (h : a + b < U64) : u64sadd a b = a + b := by
  unfold u64sadd
  simp [h]

/-! ## `src/proc/prev_cpu.rs`

```rust
pub(super) struct PrevCpu { pub(super) uptime: f64, pub(super) cpu_used: u64 }
```
The store `HashMap<i32, PrevCpu>` is modelled as `Int → Option PrevCpu`.
-/

structure PrevCpu where
  uptime : ℚ
  cpu_used : Nat
  deriving DecidableEq

/-- The previous-sample store `HashMap<i32, PrevCpu>`. -/
def PrevMap : Type := Int → Option PrevCpu

/-- Rust `HashMap::insert` / in-place mutation of an existing entry. -/
def PrevMap.update (m : PrevMap) (pid : Int) (v : PrevCpu) : PrevMap :=
  fun k => if k = pid then some v else m k

/-- Empty store (`HashMap::default()`). -/
def PrevMap.empty : PrevMap := fun _ => none

namespace PrevCpuRs

/-- Function `PrevCpuMap::calculate` of `src/proc/prev_cpu.rs` (lines 14-27):

```rust
if let Some(prev_cpu) = self.get_mut(&pid) {
    let cpu_usage = (cpu_used - prev_cpu.cpu_used) as f64 * 100.0
        / ((uptime - prev_cpu.uptime) * ticks as f64);
    prev_cpu.uptime = uptime; prev_cpu.cpu_used = cpu_used;
    Some(cpu_usage as f32)
} else { self.insert(pid, PrevCpu { uptime, cpu_used }); None }
```
The `u64` subtraction wraps (`u64sub`); the `f64` quotient is modelled in
`ℚ` (for a zero elapsed time IEEE would give `inf`/`NaN`, `ℚ` gives `0`;
no theorem relies on the value in that case, only on the `some`). -/
def calculate (m : PrevMap) (pid : Int) (uptime : ℚ) (cpu_used : Nat) (ticks : Nat) :
    Option ℚ × PrevMap :=
  match m pid with
  | some prev_cpu =>
      let cpu_usage : ℚ :=
        (u64sub cpu_used prev_cpu.cpu_used : ℚ) * 100 /
          ((uptime - prev_cpu.uptime) * (ticks : ℚ))
      (some cpu_usage, m.update pid ⟨uptime, cpu_used⟩)
  | none => (none, m.update pid ⟨uptime, cpu_used⟩)

/-- Function `PrevCpuMap::cleanup` of `src/proc/prev_cpu.rs` (lines 29-31):
`self.retain(|_, p| p.uptime.eq(&uptime));` -/
def cleanup (m : PrevMap) (uptime : ℚ) : PrevMap :=
  fun k =>
    match m k with
    | some p => if p.uptime = uptime then some p else none
    | none => none

/-- One sampling pass's sequence of `calculate` calls: every observed
`(pid, cpu_used)` pair is routed through `calculate` at the pass's
`uptime` (see `Proc::get_system` / `ProcessInfo::read`). -/
def observeAll (m : PrevMap) (uptime : ℚ) (ticks : Nat) : List (Int × Nat) → PrevMap
  | [] => m
  | (pid, c) :: rest => observeAll (calculate m pid uptime c ticks).2 uptime ticks rest

/-- A full pass over the store: all `calculate` calls, then `cleanup`
at the same `uptime` (`Proc::get_system` line 111 / `prev_cpu.rs` usage). -/
def runPass (m : PrevMap) (uptime : ℚ) (ticks : Nat) (samples : List (Int × Nat)) : PrevMap :=
  cleanup (observeAll m uptime ticks samples) uptime

end PrevCpuRs

namespace ProcModRs

/-- Function `PrevCpuMap::calculate` of `src/proc/mod.rs` (lines 257-270) — a distinct
iteration of the same idea with a different formula:

```rust
let cpu_usage =
    ((cpu_used - prev_cpu.cpu_used) * ticks) as f64 / (uptime - prev_cpu.uptime);
```
Both the subtraction and the multiplication by `ticks` happen in `u64`
(wrapping in release mode) before the cast to `f64`.  There is no
`* 100.0` and `ticks` multiplies the numerator. -/
def calculate (m : PrevMap) (pid : Int) (uptime : ℚ) (cpu_used : Nat) (ticks : Nat) :
    Option ℚ × PrevMap :=
  match m pid with
  | some prev_cpu =>
      let cpu_usage : ℚ :=
        ((u64sub cpu_used prev_cpu.cpu_used * ticks) % U64 : Nat) /
          (uptime - prev_cpu.uptime)
      (some cpu_usage, m.update pid ⟨uptime, cpu_used⟩)
  | none => (none, m.update pid ⟨uptime, cpu_used⟩)

end ProcModRs

/-- The spec's per-process formula: `100 * (c1 - c0) / ((t1 - t0) * ticks_per_second)`
(§8 "Monotonic-delta rule", stated over the reals, here `ℚ`). -/
def specProcessUsage (t0 t1 : ℚ) (c0 c1 : Nat) (ticks : Nat) : ℚ :=
  100 * ((c1 : ℚ) - (c0 : ℚ)) / ((t1 - t0) * (ticks : ℚ))

/-! ## `src/sysinfo_thread.rs` per-process calculator

```rust
struct ProcStats { last_update: f64, used_time: u64 }
```
-/

structure ProcStats where
  last_update : ℚ
  used_time : Nat
  deriving DecidableEq

/-- Value `ProcStats::default()`. -/
def ProcStats.dflt : ProcStats := ⟨0, 0⟩

/-- The store `HashMap<i32, ProcStats>` of `thread_main`. -/
def StatsMap : Type := Int → Option ProcStats

def StatsMap.update (m : StatsMap) (pid : Int) (v : ProcStats) : StatsMap :=
  fun k => if k = pid then some v else m k

def StatsMap.empty : StatsMap := fun _ => none

namespace SysinfoThread

/-- Function `ProcStatsHashMap::cpu_usage` of `src/sysinfo_thread.rs` (lines 412-436):

```rust
let used_time = stat.stime + stat.utime;
let old_stat = if let Some(stat) = self.get_mut(&pid) { stat }
    else { self.insert(pid, ProcStats::default()); self.get_mut(&pid).unwrap() };
let cpu_usage = if old_stat.last_update > 0.0 {
    let interval = (uptime - old_stat.last_update) * ticks_per_sec as f64;
    let time_diff = used_time - old_stat.used_time;
    time_diff as f64 * 100.0 / interval
} else { 0.0 };
old_stat.last_update = uptime; old_stat.used_time = used_time;
cpu_usage
```
The insert-default-then-mutate sequence is modelled by reading the old entry
(or the default) and writing the final `⟨uptime, used_time⟩` once.  `stime +
utime` and `used_time - old.used_time` are `u64` operations (wrapping in
release mode).  The function always returns a plain number — its `f64`
result type has no way to express "unknown"; `0.0` doubles as the
no-baseline answer. -/
def cpu_usage (m : StatsMap) (pid : Int) (stime utime : Nat) (uptime : ℚ)
    (ticks_per_sec : Nat) : ℚ × StatsMap :=
  let used_time := (stime + utime) % U64
  let old_stat := (m pid).getD ProcStats.dflt
  let usage : ℚ :=
    if 0 < old_stat.last_update then
      (u64sub used_time old_stat.used_time : ℚ) * 100 /
        ((uptime - old_stat.last_update) * (ticks_per_sec : ℚ))
    else 0
  (usage, m.update pid ⟨uptime, used_time⟩)

end SysinfoThread

-- sanity examples (spec §8 end-to-end scenario)
example : specProcessUsage 10 12 500 700 100 = 100 := by norm_num [specProcessUsage]

example :
    (PrevCpuRs.calculate (PrevMap.empty.update 100 ⟨10, 500⟩) 100 12 700 100).1 =
      some 100 := by
  simp [PrevCpuRs.calculate, PrevMap.update, PrevMap.empty, u64sub, U64]
  norm_num

namespace SysinfoThread

/-- One sampling pass's sequence of `cpu_usage` calls in
`convert_to_process_infos`: every enumerated `(pid, stime, utime)` sample is
routed through `cpu_usage` at the pass's `uptime`. -/
def observeAll (m : StatsMap) (uptime : ℚ) (ticks : Nat) :
    List (Int × Nat × Nat) → StatsMap
  | [] => m
  | (pid, st, ut) :: rest =>
      observeAll (cpu_usage m pid st ut uptime ticks).2 uptime ticks rest

/-- Line 98 of `thread_main`: `procstats.retain(|_, p| p.last_update.eq(&uptime));` -/
def retainStats (m : StatsMap) (uptime : ℚ) : StatsMap :=
  fun k =>
    match m k with
    | some p => if p.last_update = uptime then some p else none
    | none => none

/-- One pass over the `procstats` store: all `cpu_usage` calls, then the
`retain` at the same `uptime`. -/
def runPass (m : StatsMap) (uptime : ℚ) (ticks : Nat)
    (samples : List (Int × Nat × Nat)) : StatsMap :=
  retainStats (observeAll m uptime ticks samples) uptime

end SysinfoThread

/-! ### Store lemmas shared by the eviction claims -/

theorem prevCalculate_snd (m : PrevMap) (pid : Int) (u : ℚ) (c ticks : Nat) :
    (PrevCpuRs.calculate m pid u c ticks).2 = m.update pid ⟨u, c⟩ := by
  unfold PrevCpuRs.calculate
  cases m pid <;> rfl

theorem prevObserveAll_not_mem (u : ℚ) (ticks : Nat) (samples : List (Int × Nat))
    (m : PrevMap) (id : Int) (h : id ∉ samples.map Prod.fst) :
    PrevCpuRs.observeAll m u ticks samples id = m id := by
  induction samples generalizing m with
  | nil => rfl
  | cons s rest ih =>
    obtain ⟨p, c⟩ := s
    simp only [List.map_cons, List.mem_cons] at h
    push_neg at h
    obtain ⟨h1, h2⟩ := h
    rw [PrevCpuRs.observeAll, ih _ h2, prevCalculate_snd]
    simp [PrevMap.update, h1]

theorem prevObserveAll_mem (u : ℚ) (ticks : Nat) (samples : List (Int × Nat))
    (m : PrevMap) (id : Int) (h : id ∈ samples.map Prod.fst) :
    ∃ c, PrevCpuRs.observeAll m u ticks samples id = some ⟨u, c⟩ := by
  induction samples generalizing m with
  | nil => simp at h
  | cons s rest ih =>
    obtain ⟨p, c⟩ := s
    by_cases hr : id ∈ rest.map Prod.fst
    · exact ih _ hr
    · simp only [List.map_cons, List.mem_cons, hr, or_false] at h
      refine ⟨c, ?_⟩
      rw [PrevCpuRs.observeAll, prevObserveAll_not_mem u ticks rest _ id hr,
        prevCalculate_snd]
      simp [PrevMap.update, h]

theorem statsCpuUsage_snd (m : StatsMap) (pid : Int) (st ut : Nat) (u : ℚ) (ticks : Nat) :
    (SysinfoThread.cpu_usage m pid st ut u ticks).2 =
      m.update pid ⟨u, (st + ut) % U64⟩ := by
  rfl

theorem statsObserveAll_not_mem (u : ℚ) (ticks : Nat)
    (samples : List (Int × Nat × Nat)) (m : StatsMap) (id : Int)
    (h : id ∉ samples.map Prod.fst) :
    SysinfoThread.observeAll m u ticks samples id = m id := by
  induction samples generalizing m with
  | nil => rfl
  | cons s rest ih =>
    obtain ⟨p, st, ut⟩ := s
    simp only [List.map_cons, List.mem_cons] at h
    push_neg at h
    obtain ⟨h1, h2⟩ := h
    rw [SysinfoThread.observeAll, ih _ h2, statsCpuUsage_snd]
    simp [StatsMap.update, h1]

theorem statsObserveAll_mem (u : ℚ) (ticks : Nat)
    (samples : List (Int × Nat × Nat)) (m : StatsMap) (id : Int)
    (h : id ∈ samples.map Prod.fst) :
    ∃ c, SysinfoThread.observeAll m u ticks samples id = some ⟨u, c⟩ := by
  induction samples generalizing m with
  | nil => simp at h
  | cons s rest ih =>
    obtain ⟨p, st, ut⟩ := s
    by_cases hr : id ∈ rest.map Prod.fst
    · exact ih _ hr
    · simp only [List.map_cons, List.mem_cons, hr, or_false] at h
      refine ⟨(st + ut) % U64, ?_⟩
      rw [SysinfoThread.observeAll, statsObserveAll_not_mem u ticks rest _ id hr,
        statsCpuUsage_snd]
      simp [StatsMap.update, h]

/-! ## Claim C1 — the per-process delta formula across calculator iterations -/

/-- C1 fails as stated: the `src/proc/mod.rs` iteration of
`PrevCpuMap::calculate` does not return the spec's percentage.  With
baseline `(t0, c0) = (1, 500)`, sample `(t1, c1) = (3, 700)` and
`ticks_per_second = 100`, the spec formula gives `100`, but that iteration
returns `(700 - 500) * 100 / (3 - 1) = 10000` (it multiplies by `ticks`
instead of dividing, and has no `* 100.0`). -/
theorem c1_counterexample :
    (ProcModRs.calculate (PrevMap.empty.update 5 ⟨1, 500⟩) 5 3 700 100).1 = some 10000 ∧
    specProcessUsage 1 3 500 700 100 = 100 ∧
    (ProcModRs.calculate (PrevMap.empty.update 5 ⟨1, 500⟩) 5 3 700 100).1 ≠
      some (specProcessUsage 1 3 500 700 100) := by
  refine ⟨?_, ?_, ?_⟩ <;>
    simp [ProcModRs.calculate, PrevMap.update, PrevMap.empty, u64sub, U64,
      specProcessUsage] <;> norm_num

/-- C1 amended: for a stored baseline `(t0, c0)` and a new sample with
`t1 > t0` and `c1 ≥ c0`, the `prev_cpu.rs` calculator and the
`sysinfo_thread.rs` calculator both return the spec formula
`100 * (c1 - c0) / ((t1 - t0) * ticks_per_second)`; the `proc/mod.rs`
iteration instead returns `(c1 - c0) * ticks_per_second / (t1 - t0)`. -/
theorem c1_per_process_formula (m : PrevMap) (sm : StatsMap) (pid : Int)
    (t0 t1 : ℚ) (c0 c1 stime utime ticks : Nat)
    (hm : m pid = some ⟨t0, c0⟩) (hsm : sm pid = some ⟨t0, c0⟩)
    (ht0 : 0 < t0) (ht : t0 < t1)
    (hc : c0 ≤ c1) (hc1 : c1 < U64)
    (hcs : c0 ≤ stime + utime) (hcs1 : stime + utime < U64)
    (hmul : (c1 - c0) * ticks < U64) :
    (PrevCpuRs.calculate m pid t1 c1 ticks).1 =
      some (specProcessUsage t0 t1 c0 c1 ticks) ∧
    (SysinfoThread.cpu_usage sm pid stime utime t1 ticks).1 =
      specProcessUsage t0 t1 c0 (stime + utime) ticks ∧
    (ProcModRs.calculate m pid t1 c1 ticks).1 =
      some ((((c1 : ℚ) - (c0 : ℚ)) * (ticks : ℚ)) / (t1 - t0)) := by
  refine ⟨?_, ?_, ?_⟩
  · simp only [PrevCpuRs.calculate, hm]
    rw [u64sub_of_le hc hc1]
    unfold specProcessUsage
    push_cast [hc]
    ring_nf
  · simp only [SysinfoThread.cpu_usage, hsm, Option.getD_some]
    rw [Nat.mod_eq_of_lt hcs1]
    simp only [lt_of_lt_of_le ht0 (le_refl t0), if_pos ht0]
    rw [u64sub_of_le hcs hcs1]
    unfold specProcessUsage
    push_cast [hcs]
    ring_nf
  · simp only [ProcModRs.calculate, hm]
    rw [u64sub_of_le hc hc1, Nat.mod_eq_of_lt hmul]
    push_cast [hc]
    ring_nf

/-- Witness for C1's amended theorem at baseline `(10, 500)`, sample
`(12, 700)` (and `stime + utime = 700`), `ticks_per_second = 100`. -/
theorem c1_per_process_formula_witness :
    (PrevCpuRs.calculate (PrevMap.empty.update 7 ⟨10, 500⟩) 7 12 700 100).1 =
      some (specProcessUsage 10 12 500 700 100) ∧
    (SysinfoThread.cpu_usage (StatsMap.empty.update 7 ⟨10, 500⟩) 7 600 100 12 100).1 =
      specProcessUsage 10 12 500 (600 + 100) 100 ∧
    (ProcModRs.calculate (PrevMap.empty.update 7 ⟨10, 500⟩) 7 12 700 100).1 =
      some ((((700 : ℚ) - (500 : ℚ)) * (100 : ℚ)) / (12 - 10)) :=
  c1_per_process_formula (PrevMap.empty.update 7 ⟨10, 500⟩)
    (StatsMap.empty.update 7 ⟨10, 500⟩) 7 10 12 500 700 600 100 100
    rfl rfl (by norm_num) (by norm_num) (by norm_num)
    (by norm_num [U64]) (by norm_num) (by norm_num [U64]) (by norm_num [U64])

/-! ## Claim C2 — counter-reset defense (saturation at zero) -/

/-- C2 names a defense the code does not implement: with baseline
`(t0, c0) = (1, 10)` and sample `(t1, c1) = (2, 5)` (counter decreased),
`PrevCpuMap::calculate` of `prev_cpu.rs` performs the raw `u64`
subtraction `5 - 10`, which panics in a debug build and wraps to
`2 ^ 64 - 5` in release, yielding the astronomical percentage
`18446744073709551611` — not `0` and not "unknown". -/
theorem c2_no_saturation_eval :
    (PrevCpuRs.calculate (PrevMap.empty.update 1 ⟨1, 10⟩) 1 2 5 100).1 =
      some 18446744073709551611 ∧
    ((18446744073709551611 : ℚ) = 0 → False) := by
  constructor
  · simp [PrevCpuRs.calculate, PrevMap.update, PrevMap.empty, u64sub, U64]
    norm_num
  · intro h
    norm_num at h

/-! ## Claim C3 — zero elapsed interval -/

/-- C3 names a guard the code does not have: with a stored baseline at
`t0 = 2` and a new sample at the same `t1 = 2`, `PrevCpuMap::calculate`
of `prev_cpu.rs` still takes the `Some` branch and returns a value (in
real `f64` arithmetic the division by the zero interval yields `+inf` or
`NaN`); it does not short-circuit to `None`. -/
theorem c3_no_zero_interval_guard :
    ((PrevCpuRs.calculate (PrevMap.empty.update 1 ⟨2, 100⟩) 1 2 200 100).1).isSome = true := by
  rfl

/-! ## Claim C4 — first observation -/

/-- C4 fails as stated for the `sysinfo_thread.rs` iteration: its
`ProcStatsHashMap::cpu_usage` returns the plain number `0.0` for a pid
with no stored baseline (its `f64` result type has no "unknown"),
exactly the fabricated zero the claim rules out; the baseline is
still inserted. -/
theorem c4_counterexample :
    (SysinfoThread.cpu_usage StatsMap.empty 1 3 4 10 100).1 = 0 ∧
    (SysinfoThread.cpu_usage StatsMap.empty 1 3 4 10 100).2 1 = some ⟨10, 7⟩ := by
  constructor
  · simp [SysinfoThread.cpu_usage, StatsMap.empty, ProcStats.dflt]
  · simp [SysinfoThread.cpu_usage, StatsMap.empty, StatsMap.update, U64]

/-- C4 amended: on first observation of an identity, the Option-returning
calculators (`prev_cpu.rs` and `proc/mod.rs`) return `None` and insert the
observed `(timestamp, cumulative_ticks)` baseline; the `sysinfo_thread.rs`
iteration also inserts the baseline but returns the number `0.0` (its
result type has no "unknown" value). -/
theorem c4_first_observation (m : PrevMap) (sm : StatsMap) (pid : Int)
    (t : ℚ) (c stime utime ticks : Nat)
    (hm : m pid = none) (hsm : sm pid = none) (hsum : stime + utime < U64) :
    (PrevCpuRs.calculate m pid t c ticks).1 = none ∧
    (PrevCpuRs.calculate m pid t c ticks).2 pid = some ⟨t, c⟩ ∧
    (ProcModRs.calculate m pid t c ticks).1 = none ∧
    (ProcModRs.calculate m pid t c ticks).2 pid = some ⟨t, c⟩ ∧
    (SysinfoThread.cpu_usage sm pid stime utime t ticks).1 = 0 ∧
    (SysinfoThread.cpu_usage sm pid stime utime t ticks).2 pid = some ⟨t, stime + utime⟩ := by
  refine ⟨?_, ?_, ?_, ?_, ?_, ?_⟩
  · simp [PrevCpuRs.calculate, hm]
  · simp [PrevCpuRs.calculate, hm, PrevMap.update]
  · simp [ProcModRs.calculate, hm]
  · simp [ProcModRs.calculate, hm, PrevMap.update]
  · simp [SysinfoThread.cpu_usage, hsm, ProcStats.dflt]
  · simp [SysinfoThread.cpu_usage, hsm, StatsMap.update, Nat.mod_eq_of_lt hsum]

/-- Witness for C4 at pid `9`, timestamp `4`, ticks `250` (and
`stime + utime = 3 + 4`), on empty stores. -/
theorem c4_first_observation_witness :
    (PrevCpuRs.calculate PrevMap.empty 9 4 250 100).1 = none ∧
    (PrevCpuRs.calculate PrevMap.empty 9 4 250 100).2 9 = some ⟨4, 250⟩ ∧
    (ProcModRs.calculate PrevMap.empty 9 4 250 100).1 = none ∧
    (ProcModRs.calculate PrevMap.empty 9 4 250 100).2 9 = some ⟨4, 250⟩ ∧
    (SysinfoThread.cpu_usage StatsMap.empty 9 3 4 4 100).1 = 0 ∧
    (SysinfoThread.cpu_usage StatsMap.empty 9 3 4 4 100).2 9 = some ⟨4, 3 + 4⟩ :=
  c4_first_observation PrevMap.empty StatsMap.empty 9 4 250 3 4 100
    rfl rfl (by norm_num [U64])

/-! ## Claim C5 — eviction after each pass -/

/-- C5: after a pass (all `calculate`/`cpu_usage` calls at the pass's
`uptime`, then the `retain` at that same `uptime`), the previous-sample
store holds exactly the identities observed during the pass, and an
identity not observed (hence evicted) is a fresh first observation on its
next appearance — `None` from the `prev_cpu.rs` calculator, the
no-baseline `0` from the `sysinfo_thread.rs` one.  The freshness
hypotheses record that the pass's `uptime` differs from the queried
identity's stored timestamp, which holds in the sampling loop because
`/proc/uptime` strictly increases between passes. -/
theorem c5_eviction (m : PrevMap) (sm : StatsMap) (u t : ℚ)
    (ticks c2 st2 ut2 : Nat)
    (samples : List (Int × Nat)) (ssamples : List (Int × Nat × Nat)) (id : Int)
    (hfresh : ∀ p, m id = some p → p.uptime ≠ u)
    (hsfresh : ∀ p, sm id = some p → p.last_update ≠ u) :
    (PrevCpuRs.runPass m u ticks samples id ≠ none ↔ id ∈ samples.map Prod.fst) ∧
    (id ∉ samples.map Prod.fst →
      (PrevCpuRs.calculate (PrevCpuRs.runPass m u ticks samples) id t c2 ticks).1 = none) ∧
    (SysinfoThread.runPass sm u ticks ssamples id ≠ none ↔ id ∈ ssamples.map Prod.fst) ∧
    (id ∉ ssamples.map Prod.fst →
      (SysinfoThread.cpu_usage (SysinfoThread.runPass sm u ticks ssamples)
        id st2 ut2 t ticks).1 = 0) := by
  have hnone : id ∉ samples.map Prod.fst →
      PrevCpuRs.runPass m u ticks samples id = none := by
    intro h
    unfold PrevCpuRs.runPass PrevCpuRs.cleanup
    rw [prevObserveAll_not_mem u ticks samples m id h]
    cases hm : m id with
    | none => rfl
    | some p => simp [hfresh p hm]
  have hsnone : id ∉ ssamples.map Prod.fst →
      SysinfoThread.runPass sm u ticks ssamples id = none := by
    intro h
    unfold SysinfoThread.runPass SysinfoThread.retainStats
    rw [statsObserveAll_not_mem u ticks ssamples sm id h]
    cases hm : sm id with
    | none => rfl
    | some p => simp [hsfresh p hm]
  refine ⟨⟨?_, ?_⟩, ?_, ⟨?_, ?_⟩, ?_⟩
  · intro hne
    by_contra h
    exact hne (hnone h)
  · intro h
    obtain ⟨c, hc⟩ := prevObserveAll_mem u ticks samples m id h
    unfold PrevCpuRs.runPass PrevCpuRs.cleanup
    rw [hc]
    simp
  · intro h
    simp [PrevCpuRs.calculate, hnone h]
  · intro hne
    by_contra h
    exact hne (hsnone h)
  · intro h
    obtain ⟨c, hc⟩ := statsObserveAll_mem u ticks ssamples sm id h
    unfold SysinfoThread.runPass SysinfoThread.retainStats
    rw [hc]
    simp
  · intro h
    simp [SysinfoThread.cpu_usage, hsnone h, ProcStats.dflt]

/-- Witness for C5: stores holding identity `3` with timestamp `1`, a pass
at `uptime = 2` observing identities `1` and `2`; identity `3` is evicted
and reappears as a fresh first observation. -/
theorem c5_eviction_witness :
    (PrevCpuRs.runPass (PrevMap.empty.update 3 ⟨1, 5⟩) 2 100 ([(1, 5), (2, 7)] : List (Int × Nat)) 3 ≠ none ↔
      3 ∈ List.map Prod.fst ([(1, 5), (2, 7)] : List (Int × Nat))) ∧
    ((3 : Int) ∉ List.map Prod.fst ([(1, 5), (2, 7)] : List (Int × Nat)) →
      (PrevCpuRs.calculate
        (PrevCpuRs.runPass (PrevMap.empty.update 3 ⟨1, 5⟩) 2 100 ([(1, 5), (2, 7)] : List (Int × Nat)))
        3 3 9 100).1 = none) ∧
    (SysinfoThread.runPass (StatsMap.empty.update 3 ⟨1, 5⟩) 2 100
        ([(1, 5, 6), (2, 7, 8)] : List (Int × Nat × Nat)) 3 ≠ none ↔
      3 ∈ List.map Prod.fst ([(1, 5, 6), (2, 7, 8)] : List (Int × Nat × Nat))) ∧
    ((3 : Int) ∉ List.map Prod.fst ([(1, 5, 6), (2, 7, 8)] : List (Int × Nat × Nat)) →
      (SysinfoThread.cpu_usage
        (SysinfoThread.runPass (StatsMap.empty.update 3 ⟨1, 5⟩) 2 100
          ([(1, 5, 6), (2, 7, 8)] : List (Int × Nat × Nat)))
        3 1 2 3 100).1 = 0) :=
  c5_eviction (PrevMap.empty.update 3 ⟨1, 5⟩) (StatsMap.empty.update 3 ⟨1, 5⟩)
    2 3 100 9 1 2 ([(1, 5), (2, 7)] : List (Int × Nat)) ([(1, 5, 6), (2, 7, 8)] : List (Int × Nat × Nat)) 3
    (by
      intro p hp
      simp [PrevMap.update, PrevMap.empty] at hp
      subst hp
      norm_num)
    (by
      intro p hp
      simp [StatsMap.update, StatsMap.empty] at hp
      subst hp
      norm_num)

/-! ## Aggregate CPU calculators

`CpuMetrics` of `src/sysinfo_thread.rs` (lines 353-406) and `CpuTime` of
`src/proc/cputime.rs` (lines 25-61). -/

/-- Rust `struct CpuMetrics` (sysinfo_thread.rs): the procfs crate exposes
`iowait`..`guest_nice` as `Option<u64>`. -/
structure CpuMetrics where
  user : Nat
  system : Nat
  nice : Nat
  idle : Nat
  iowait : Option Nat
  irq : Option Nat
  softirq : Option Nat
  steal : Option Nat
  guest : Option Nat
  guest_nice : Option Nat
  deriving DecidableEq

namespace CpuMetrics

/-- Value `CpuMetrics::default()` (all counters zero, options `None`). -/
def dflt : CpuMetrics := ⟨0, 0, 0, 0, none, none, none, none, none, none⟩

/-- Method `CpuMetrics::work_time` (lines 385-391): a chain of `saturating_add`,
with `unwrap_or(0)` on the optional categories. -/
def work_time (c : CpuMetrics) : Nat :=
  u64sadd (u64sadd (u64sadd (u64sadd c.user c.system) c.nice)
    (c.irq.getD 0)) (c.softirq.getD 0)

/-- Method `CpuMetrics::total_time` (lines 393-400). -/
def total_time (c : CpuMetrics) : Nat :=
  u64sadd (u64sadd (u64sadd (u64sadd (u64sadd c.work_time c.idle)
    (c.iowait.getD 0)) (c.steal.getD 0)) (c.guest.getD 0)) (c.guest_nice.getD 0)

/-- Method `CpuMetrics::cpu_usage` (lines 402-405):
```rust
(self.work_time() - old.work_time()) as f64 * 100.0
    / (self.total_time() - old.total_time()) as f64
```
(`u64` subtractions, then `f64` division — modelled in `ℚ`). -/
def cpu_usage (c old : CpuMetrics) : ℚ :=
  (u64sub c.work_time old.work_time : ℚ) * 100 /
    (u64sub c.total_time old.total_time : ℚ)

end CpuMetrics

/-- Rust `struct CpuTime` (cputime.rs), all ten categories plain `u64`. -/
structure CpuTime where
  user : Nat
  nice : Nat
  system : Nat
  idle : Nat
  iowait : Nat
  irq : Nat
  softirq : Nat
  steal : Nat
  guest : Nat
  guest_nice : Nat
  deriving DecidableEq

namespace CpuTime

/-- Method `CpuTime::work` (cputime.rs lines 40-46). -/
def work (c : CpuTime) : Nat :=
  u64sadd (u64sadd (u64sadd (u64sadd c.user c.system) c.nice) c.irq) c.softirq

/-- Method `CpuTime::total` (cputime.rs lines 48-57).  Note: `irq` and `softirq`
appear in `work()` and are then added once more here. -/
def total (c : CpuTime) : Nat :=
  u64sadd (u64sadd (u64sadd (u64sadd (u64sadd (u64sadd (u64sadd c.work c.idle)
    c.iowait) c.irq) c.softirq) c.steal) c.guest) c.guest_nice

/-- Method `CpuTime::cpu_usage` (cputime.rs lines 59-61), the same two-sample
subtraction in `f32` — modelled in `ℚ`. -/
def cpu_usage (c old : CpuTime) : ℚ :=
  (u64sub c.work old.work : ℚ) * 100 / (u64sub c.total old.total : ℚ)

end CpuTime

/-- The spec's aggregate work sum `user + system + nice + irq + softirq`
(§4.2 step 3), for the `CpuMetrics` representation. -/
def specWorkM (c : CpuMetrics) : Nat :=
  c.user + c.system + c.nice + c.irq.getD 0 + c.softirq.getD 0

/-- The spec's aggregate total sum
`work + idle + iowait + steal + guest + guest_nice` (§4.2 step 3). -/
def specTotalM (c : CpuMetrics) : Nat :=
  specWorkM c + c.idle + c.iowait.getD 0 + c.steal.getD 0 +
    c.guest.getD 0 + c.guest_nice.getD 0

/-- The spec's work sum for the `CpuTime` representation. -/
def specWorkT (c : CpuTime) : Nat :=
  c.user + c.system + c.nice + c.irq + c.softirq

/-- The spec's total sum for the `CpuTime` representation. -/
def specTotalT (c : CpuTime) : Nat :=
  specWorkT c + c.idle + c.iowait + c.steal + c.guest + c.guest_nice

/-- The spec's aggregate percentage `100 * Δwork / Δtotal` (§4.2 step 3),
over the spec's category sums, for the `CpuTime` representation. -/
def specAggUsageT (c old : CpuTime) : ℚ :=
  100 * ((specWorkT c : ℚ) - (specWorkT old : ℚ)) /
    ((specTotalT c : ℚ) - (specTotalT old : ℚ))

theorem cpuMetrics_work_eq (c : CpuMetrics) (h : specWorkM c < U64) :
    c.work_time = specWorkM c := by
  unfold CpuMetrics.work_time
  unfold specWorkM at *
  unfold u64sadd
  split_ifs <;> omega

theorem cpuMetrics_total_eq (c : CpuMetrics) (h : specTotalM c < U64) :
    c.total_time = specTotalM c := by
  have hw : c.work_time = specWorkM c := by
    apply cpuMetrics_work_eq
    unfold specTotalM at h
    omega
  unfold CpuMetrics.total_time
  rw [hw]
  unfold specTotalM at *
  unfold u64sadd
  split_ifs <;> omega

/-! ## Claim C6 — the aggregate formula -/

/-- C6 fails as stated for the `cputime.rs` iteration: `CpuTime::total`
adds `irq` and `softirq` a second time (they are already inside `work`).
With a previous sample of all zeros and a new sample whose only nonzero
category is `irq = 4`, the spec formula `100 * Δwork / Δtotal` gives
`100`, but `CpuTime::cpu_usage` returns `400 / 8 = 50`. -/
theorem c6_counterexample :
    CpuTime.cpu_usage ⟨0, 0, 0, 0, 0, 4, 0, 0, 0, 0⟩ ⟨0, 0, 0, 0, 0, 0, 0, 0, 0, 0⟩ = 50 ∧
    specAggUsageT ⟨0, 0, 0, 0, 0, 4, 0, 0, 0, 0⟩ ⟨0, 0, 0, 0, 0, 0, 0, 0, 0, 0⟩ = 100 ∧
    CpuTime.cpu_usage ⟨0, 0, 0, 0, 0, 4, 0, 0, 0, 0⟩ ⟨0, 0, 0, 0, 0, 0, 0, 0, 0, 0⟩ ≠
      specAggUsageT ⟨0, 0, 0, 0, 0, 4, 0, 0, 0, 0⟩ ⟨0, 0, 0, 0, 0, 0, 0, 0, 0, 0⟩ := by
  refine ⟨?_, ?_, ?_⟩ <;>
    norm_num [CpuTime.cpu_usage, CpuTime.work, CpuTime.total, u64sadd, u64sub, U64,
      specAggUsageT, specWorkT, specTotalT]

theorem specWorkM_le_specTotalM (c : CpuMetrics) : specWorkM c ≤ specTotalM c := by
  unfold specTotalM
  omega

/-- C6 amended: `CpuMetrics::cpu_usage` (sysinfo_thread.rs) computes
exactly `100 * Δwork / Δtotal` with `work = user+system+nice+irq+softirq`
and `total = work+idle+iowait+steal+guest+guest_nice` (given monotone
counters below the `u64` saturation bound); the `cputime.rs` iteration
instead uses a denominator that counts `irq` and `softirq` twice.  Both
agree on the cited example `(work, idle)`: `(1000, 9000)` then
`(1100, 9300)` gives `25` because the irq/softirq deltas there are zero. -/
theorem c6_aggregate_formula (n o : CpuMetrics)
    (hw : specWorkM o ≤ specWorkM n) (ht : specTotalM o ≤ specTotalM n)
    (hn : specTotalM n < U64) (ho : specTotalM o < U64) :
    CpuMetrics.cpu_usage n o =
      100 * ((specWorkM n : ℚ) - (specWorkM o : ℚ)) /
        ((specTotalM n : ℚ) - (specTotalM o : ℚ)) ∧
    CpuMetrics.cpu_usage ⟨1100, 0, 0, 9300, none, none, none, none, none, none⟩
      ⟨1000, 0, 0, 9000, none, none, none, none, none, none⟩ = 25 ∧
    CpuTime.cpu_usage ⟨1100, 0, 0, 9300, 0, 0, 0, 0, 0, 0⟩
      ⟨1000, 0, 0, 9000, 0, 0, 0, 0, 0, 0⟩ = 25 := by
  refine ⟨?_, ?_, ?_⟩
  · unfold CpuMetrics.cpu_usage
    rw [cpuMetrics_work_eq n (lt_of_le_of_lt (specWorkM_le_specTotalM n) hn),
      cpuMetrics_work_eq o (lt_of_le_of_lt (specWorkM_le_specTotalM o) ho),
      cpuMetrics_total_eq n hn, cpuMetrics_total_eq o ho,
      u64sub_of_le hw (lt_of_le_of_lt (specWorkM_le_specTotalM n) hn),
      u64sub_of_le ht hn, Nat.cast_sub hw, Nat.cast_sub ht]
    ring_nf
  · norm_num [CpuMetrics.cpu_usage, CpuMetrics.work_time, CpuMetrics.total_time,
      u64sadd, u64sub, U64]
  · norm_num [CpuTime.cpu_usage, CpuTime.work, CpuTime.total, u64sadd, u64sub, U64]

/-- Witness for C6's amended theorem at the spec's own example samples. -/
theorem c6_aggregate_formula_witness :
    CpuMetrics.cpu_usage ⟨1100, 0, 0, 9300, none, none, none, none, none, none⟩
      ⟨1000, 0, 0, 9000, none, none, none, none, none, none⟩ =
      100 *
        ((specWorkM ⟨1100, 0, 0, 9300, none, none, none, none, none, none⟩ : ℚ) -
          (specWorkM ⟨1000, 0, 0, 9000, none, none, none, none, none, none⟩ : ℚ)) /
        ((specTotalM ⟨1100, 0, 0, 9300, none, none, none, none, none, none⟩ : ℚ) -
          (specTotalM ⟨1000, 0, 0, 9000, none, none, none, none, none, none⟩ : ℚ)) ∧
    CpuMetrics.cpu_usage ⟨1100, 0, 0, 9300, none, none, none, none, none, none⟩
      ⟨1000, 0, 0, 9000, none, none, none, none, none, none⟩ = 25 ∧
    CpuTime.cpu_usage ⟨1100, 0, 0, 9300, 0, 0, 0, 0, 0, 0⟩
      ⟨1000, 0, 0, 9000, 0, 0, 0, 0, 0, 0⟩ = 25 :=
  c6_aggregate_formula
    ⟨1100, 0, 0, 9300, none, none, none, none, none, none⟩
    ⟨1000, 0, 0, 9000, none, none, none, none, none, none⟩
    (by norm_num [specWorkM]) (by norm_num [specTotalM, specWorkM])
    (by norm_num [specTotalM, specWorkM, U64]) (by norm_num [specTotalM, specWorkM, U64])

/-! ## `thread_main` of `src/sysinfo_thread.rs` (lines 18-107)

One loop iteration is embedded as a step function.  The fallible reads of
a pass become explicit inputs: `Uptime::current()`, `process::all_processes()`
(together with the per-process stat reads; transient per-process failures
just shrink the sample list), `LoadAverage::current()`,
`KernelStats::current()` and `Meminfo::current()` (already converted to
`MemSwapInfo`) each become an `Option`; `send_ok` is whether
`tx.send(..)` succeeded (the consumer's receiver still exists); `ctrl` is
`Ok(Message::SendThreads(state))` from `rx.recv_timeout(..)`. -/

namespace SysinfoThread

structure LoadAvg where
  one : ℚ
  five : ℚ
  fifteen : ℚ
  deriving DecidableEq

/-- Value `LoadAvg::default()`. -/
def LoadAvg.dflt : LoadAvg := ⟨0, 0, 0⟩

structure MemSwapInfo where
  mem_total : Nat
  mem_used : Nat
  swap_total : Nat
  swap_used : Nat
  deriving DecidableEq

/-- Value `MemSwapInfo::default()`. -/
def MemSwapInfo.dflt : MemSwapInfo := ⟨0, 0, 0, 0⟩

/-- The parts of one delivered `System` value (sysinfo_thread.rs lines
180-210) the claims are about; each process record is reduced to its
`(pid, cpu_usage)` pair (the `System` struct stores `uptime` truncated to
whole seconds via `Duration::from_secs(uptime as u64)`; the untruncated
value is kept here). -/
structure Snapshot where
  processes : List (Int × ℚ)
  uptime : ℚ
  load_avg : LoadAvg
  average_cpu : Option ℚ
  cpu_percents : Option (List ℚ)
  mem_info : MemSwapInfo

/-- The loop-carried state of `thread_main` (lines 21-24). -/
structure LoopState where
  procstats : StatsMap
  cpu_total_prev : CpuMetrics
  cpus_prev : List CpuMetrics
  send_threads : Bool

/-- The initial state of `thread_main` (lines 21-24): empty `procstats`,
`CpuMetrics::default()`, empty `cpus_prev`, `send_threads = false`. -/
def initState : LoopState := ⟨StatsMap.empty, CpuMetrics.dflt, [], false⟩

/-- The fallible reads and channel interactions of one pass. -/
structure PassInput where
  uptime : Option ℚ
  processes : Option (List (Int × Nat × Nat))
  loadavg : Option LoadAvg
  kernel_stats : Option (CpuMetrics × List CpuMetrics)
  meminfo : Option MemSwapInfo
  send_ok : Bool
  ctrl : Option Bool

/-- Result of one loop iteration: `stopped` when the `break` on a failed
uptime read or a failed send is taken, otherwise the next state and the
delivered snapshot. -/
inductive StepOut where
  | stopped : StepOut
  | next : LoopState → Snapshot → StepOut

def StepOut.isStopped : StepOut → Bool
  | .stopped => true
  | .next _ _ => false

def StepOut.avgCpu : StepOut → Option (Option ℚ)
  | .stopped => none
  | .next _ snap => some snap.average_cpu

def StepOut.cpuPercents : StepOut → Option (Option (List ℚ))
  | .stopped => none
  | .next _ snap => some snap.cpu_percents

def StepOut.processesOut : StepOut → Option (List (Int × ℚ))
  | .stopped => none
  | .next _ snap => some snap.processes

def StepOut.psAt : StepOut → Int → Option (Option ProcStats)
  | .stopped, _ => none
  | .next s _, id => some (s.procstats id)

def StepOut.sendThreadsAfter : StepOut → Option Bool
  | .stopped => none
  | .next s _ => some s.send_threads

/-- Continuing state of a step, with a default for the stopped case. -/
def StepOut.stateD : StepOut → LoopState → LoopState
  | .stopped, d => d
  | .next s _, _ => s

/-- Function `convert_to_process_infos` (lines 109-151) reduced to the data the
claims mention: each enumerated sample is routed through
`ProcStatsHashMap::cpu_usage` and contributes a `(pid, cpu_usage)`
record.  Which identities are enumerated (processes or their tasks,
depending on `send_threads`) is decided by the I/O layer and is part of
the input list. -/
def convertProcesses (m : StatsMap) (uptime : ℚ) (ticks : Nat) :
    List (Int × Nat × Nat) → List (Int × ℚ) × StatsMap
  | [] => ([], m)
  | (pid, st, ut) :: rest =>
      let r := cpu_usage m pid st ut uptime ticks
      let r2 := convertProcesses r.2 uptime ticks rest
      ((pid, r.1) :: r2.1, r2.2)

/-- One iteration of the `loop` in `thread_main` (lines 26-106):

```rust
let uptime = if let Ok(current) = Uptime::current() { current.uptime } else { break; };
let (processes, ..) = if let Ok(processes) = process::all_processes() {
    convert_to_process_infos(..)
} else { (Vec::default(), ThreadCount::default()) };
let load_avg = .. unwrap_or default ..;
let (average_cpu, cpu_percents) = if let Ok(current) = KernelStats::current() {
    let ret = if cpu_total_prev.total_time() > 0 {
        (Some(metrics.cpu_usage(&cpu_total_prev)), Some(zipped per-cpu usages))
    } else { (None, None) };
    cpu_total_prev = metrics; cpus_prev = cpus; ret
} else { (None, None) };
let mem_info = .. unwrap_or default ..;
if tx.send(Message::SysInfo(System::new(..))).is_err() { break; }
procstats.retain(|_, p| p.last_update.eq(&uptime));
if let Ok(Message::SendThreads(state)) = rx.recv_timeout(..) {
    if send_threads != state { procstats.clear(); send_threads = state; }
}
```
-/
def threadStep (ticks : Nat) (s : LoopState) (inp : PassInput) : StepOut :=
  match inp.uptime with
  | none => .stopped
  | some uptime =>
    let pr : List (Int × ℚ) × StatsMap :=
      match inp.processes with
      | some ps => convertProcesses s.procstats uptime ticks ps
      | none => ([], s.procstats)
    let load_avg := inp.loadavg.getD LoadAvg.dflt
    let agg : (Option ℚ × Option (List ℚ)) × (CpuMetrics × List CpuMetrics) :=
      match inp.kernel_stats with
      | some (metrics, cpus) =>
          let ret : Option ℚ × Option (List ℚ) :=
            if 0 < s.cpu_total_prev.total_time then
              (some (metrics.cpu_usage s.cpu_total_prev),
               some ((cpus.zip s.cpus_prev).map (fun p => p.1.cpu_usage p.2)))
            else (none, none)
          (ret, (metrics, cpus))
      | none => ((none, none), (s.cpu_total_prev, s.cpus_prev))
    let mem_info := inp.meminfo.getD MemSwapInfo.dflt
    let snap : Snapshot := ⟨pr.1, uptime, load_avg, agg.1.1, agg.1.2, mem_info⟩
    if inp.send_ok then
      let ps1 := retainStats pr.2 uptime
      match inp.ctrl with
      | some b =>
          if s.send_threads ≠ b then .next ⟨StatsMap.empty, agg.2.1, agg.2.2, b⟩ snap
          else .next ⟨ps1, agg.2.1, agg.2.2, s.send_threads⟩ snap
      | none => .next ⟨ps1, agg.2.1, agg.2.2, s.send_threads⟩ snap
    else .stopped

end SysinfoThread

/-- Function `Proc::get_system` of `src/proc/mod.rs` (lines 118-126): the per-CPU
usage vector is computed only when a previous `/proc/stat` sample exists;
on the first pass it is left as the empty `Vec::default()`:
```rust
let cpu_usage = if !self.prev_cpu_time.is_empty() {
    cpu_time.iter().zip(self.prev_cpu_time.iter())
        .map(|(new, old)| new.cpu_usage(old)).collect()
} else { Vec::default() };
```
-/
def getSystemCpuUsage (prev cur : List CpuTime) : List ℚ :=
  if prev.isEmpty then []
  else (cur.zip prev).map (fun p => p.1.cpu_usage p.2)

/-! ## Claim C7 — loop termination -/

/-- C7 fails as stated: `thread_main` lines 27-31 `break` out of the loop
when the `/proc/uptime` read fails, even while the consumer is still
connected (`send_ok = true` in this input); the loop's terminal state is
not reached solely on consumer disconnect. -/
theorem c7_counterexample :
    (SysinfoThread.threadStep 100 SysinfoThread.initState
      ⟨none, some [], some SysinfoThread.LoadAvg.dflt, none,
        some SysinfoThread.MemSwapInfo.dflt, true, none⟩).isStopped = true := rfl

/-- C7 amended: one iteration of `thread_main` reaches the terminal
`break` exactly when the uptime read fails or the consumer's side of the
channel has disconnected (the send fails); failures of the process
enumeration, load-average, kernel-stat or meminfo reads never stop the
loop — they only degrade that pass's fields to defaults/`None`. -/
theorem c7_loop_exit (ticks : Nat) (s : SysinfoThread.LoopState)
    (inp : SysinfoThread.PassInput) :
    (SysinfoThread.threadStep ticks s inp).isStopped =
      (inp.uptime.isNone || !inp.send_ok) := by
  obtain ⟨up, ps, la, ks, mi, so, ct⟩ := inp
  unfold SysinfoThread.threadStep
  cases up with
  | none => rfl
  | some u =>
    cases so with
    | false => rfl
    | true =>
      cases ct with
      | none => rfl
      | some b =>
        by_cases hb : s.send_threads ≠ b <;>
          simp [hb, SysinfoThread.StepOut.isStopped]

/-! ## Claim C9 — first pass has no aggregate percentages -/

/-- C9: starting from `thread_main`'s initial state (no prior aggregate
sample: `cpu_total_prev` is `CpuMetrics::default()`, whose `total_time()`
is `0`), a delivered snapshot carries `average_cpu = None` and
`cpu_percents = None` — whether or not the kernel-stat read succeeds —
never a zero value; likewise the `proc/mod.rs` iteration leaves the
per-CPU usage vector empty when `prev_cpu_time` is empty. -/
theorem c9_first_pass (ticks : Nat) (inp : SysinfoThread.PassInput) (u : ℚ)
    (cur : List CpuTime)
    (h1 : inp.uptime = some u) (h2 : inp.send_ok = true) :
    (SysinfoThread.threadStep ticks SysinfoThread.initState inp).avgCpu = some none ∧
    (SysinfoThread.threadStep ticks SysinfoThread.initState inp).cpuPercents = some none ∧
    getSystemCpuUsage [] cur = [] := by
  obtain ⟨up, ps, la, ks, mi, so, ct⟩ := inp
  cases h1
  cases h2
  have htot : ¬ 0 < SysinfoThread.initState.cpu_total_prev.total_time := by
    norm_num [SysinfoThread.initState, CpuMetrics.dflt, CpuMetrics.total_time,
      CpuMetrics.work_time, u64sadd, U64]
  refine ⟨?_, ?_, by simp [getSystemCpuUsage]⟩ <;>
  · unfold SysinfoThread.threadStep
    cases ks with
    | none =>
      cases ct with
      | none =>
        simp [SysinfoThread.StepOut.avgCpu, SysinfoThread.StepOut.cpuPercents]
      | some b =>
        by_cases hb : SysinfoThread.initState.send_threads ≠ b <;>
          simp [hb, SysinfoThread.StepOut.avgCpu, SysinfoThread.StepOut.cpuPercents]
    | some kk =>
      obtain ⟨mm, cc⟩ := kk
      cases ct with
      | none =>
        simp [htot, SysinfoThread.StepOut.avgCpu, SysinfoThread.StepOut.cpuPercents]
      | some b =>
        by_cases hb : SysinfoThread.initState.send_threads ≠ b <;>
          simp [hb, htot, SysinfoThread.StepOut.avgCpu, SysinfoThread.StepOut.cpuPercents]

/-- Witness for C9: a first pass whose kernel-stat read succeeds with
nonzero counters still yields `None` aggregate percentages. -/
theorem c9_first_pass_witness :
    (SysinfoThread.threadStep 100 SysinfoThread.initState
      ⟨some 1, some [], some SysinfoThread.LoadAvg.dflt,
        some (⟨5, 0, 0, 10, none, none, none, none, none, none⟩, []),
        some SysinfoThread.MemSwapInfo.dflt, true, none⟩).avgCpu = some none ∧
    (SysinfoThread.threadStep 100 SysinfoThread.initState
      ⟨some 1, some [], some SysinfoThread.LoadAvg.dflt,
        some (⟨5, 0, 0, 10, none, none, none, none, none, none⟩, []),
        some SysinfoThread.MemSwapInfo.dflt, true, none⟩).cpuPercents = some none ∧
    getSystemCpuUsage [] [⟨1, 2, 3, 4, 5, 6, 7, 8, 9, 10⟩] = [] :=
  c9_first_pass 100
    ⟨some 1, some [], some SysinfoThread.LoadAvg.dflt,
      some (⟨5, 0, 0, 10, none, none, none, none, none, none⟩, []),
      some SysinfoThread.MemSwapInfo.dflt, true, none⟩
    1 [⟨1, 2, 3, 4, 5, 6, 7, 8, 9, 10⟩] rfl rfl

/-! ## Claim C8 — thread-detail toggle -/

/-- C8 fails in its "reports unknown" part: after a differing toggle the
store is indeed cleared (identity `1`'s baseline is gone even though it
was observed this pass), but the pass immediately following reports the
plain number `0.0` for the newly observed identity `1` — per-process
usage in this iteration is a bare `f64` with no "unknown" value, so the
report is a numeric zero, not an absence. -/
theorem c8_counterexample :
    (SysinfoThread.threadStep 100
      ⟨StatsMap.empty.update 1 ⟨1, 5⟩, CpuMetrics.dflt, [], false⟩
      ⟨some 2, some [(1, 3, 4)], none, none, none, true, some true⟩).psAt 1 =
      some none ∧
    (SysinfoThread.threadStep 100
      ((SysinfoThread.threadStep 100
        ⟨StatsMap.empty.update 1 ⟨1, 5⟩, CpuMetrics.dflt, [], false⟩
        ⟨some 2, some [(1, 3, 4)], none, none, none, true, some true⟩).stateD
          SysinfoThread.initState)
      ⟨some 3, some [(1, 5, 6)], none, none, none, true, none⟩).processesOut =
      some [(1, 0)] := by
  constructor <;> rfl

/-- C8 amended: receiving a `SendThreads` toggle whose value differs from
the current mode clears the entire `procstats` store before the next pass
(so that pass's newly observed identities get the no-baseline answer,
which in this iteration is the number `0.0`, not an `Option`-style
unknown) and switches the mode; a toggle carrying the already-active
value leaves the store exactly as it would be without any toggle and
keeps the mode. -/
theorem c8_toggle (ticks : Nat) (s : SysinfoThread.LoopState)
    (inp : SysinfoThread.PassInput) (b : Bool) (u : ℚ) (id : Int)
    (st2 ut2 : Nat) (t2 : ℚ)
    (h1 : inp.uptime = some u) (h2 : inp.send_ok = true) (h3 : inp.ctrl = some b) :
    (b ≠ s.send_threads →
      (SysinfoThread.threadStep ticks s inp).psAt id = some none ∧
      (SysinfoThread.threadStep ticks s inp).sendThreadsAfter = some b ∧
      (SysinfoThread.cpu_usage
        ((SysinfoThread.threadStep ticks s inp).stateD SysinfoThread.initState).procstats
        id st2 ut2 t2 ticks).1 = 0) ∧
    (b = s.send_threads →
      (SysinfoThread.threadStep ticks s inp).psAt id =
        (SysinfoThread.threadStep ticks s { inp with ctrl := none }).psAt id ∧
      (SysinfoThread.threadStep ticks s inp).sendThreadsAfter =
        some s.send_threads) := by
  obtain ⟨up, ps, la, ks, mi, so, ct⟩ := inp
  cases h1
  cases h2
  cases h3
  constructor
  · intro hb
    have hsb : s.send_threads ≠ b := hb.symm
    unfold SysinfoThread.threadStep
    refine ⟨?_, ?_, ?_⟩ <;>
      simp [hsb, SysinfoThread.StepOut.psAt, SysinfoThread.StepOut.sendThreadsAfter,
        SysinfoThread.StepOut.stateD, SysinfoThread.cpu_usage, StatsMap.empty,
        ProcStats.dflt]
  · intro hb
    have hsb : ¬ s.send_threads ≠ b := by
      simp [hb]
    unfold SysinfoThread.threadStep
    constructor <;>
      simp [hsb, SysinfoThread.StepOut.psAt, SysinfoThread.StepOut.sendThreadsAfter]

/-- Witness for C8 (differing-toggle case): mode `false`, toggle `true`,
a pass at uptime `2` observing identity `1`; afterwards the store is
empty at `1`, the mode is `true`, and a later `cpu_usage` for `1` gets
the no-baseline `0`. -/
theorem c8_toggle_witness :
    ((true ≠ false) →
      (SysinfoThread.threadStep 100
        ⟨StatsMap.empty.update 1 ⟨1, 5⟩, CpuMetrics.dflt, [], false⟩
        ⟨some 2, some [(1, 3, 4)], none, none, none, true, some true⟩).psAt 1 =
        some none ∧
      (SysinfoThread.threadStep 100
        ⟨StatsMap.empty.update 1 ⟨1, 5⟩, CpuMetrics.dflt, [], false⟩
        ⟨some 2, some [(1, 3, 4)], none, none, none, true, some true⟩).sendThreadsAfter =
        some true ∧
      (SysinfoThread.cpu_usage
        ((SysinfoThread.threadStep 100
          ⟨StatsMap.empty.update 1 ⟨1, 5⟩, CpuMetrics.dflt, [], false⟩
          ⟨some 2, some [(1, 3, 4)], none, none, none, true, some true⟩).stateD
            SysinfoThread.initState).procstats
        1 5 6 3 100).1 = 0) ∧
    ((true = false) →
      (SysinfoThread.threadStep 100
        ⟨StatsMap.empty.update 1 ⟨1, 5⟩, CpuMetrics.dflt, [], false⟩
        ⟨some 2, some [(1, 3, 4)], none, none, none, true, some true⟩).psAt 1 =
        (SysinfoThread.threadStep 100
          ⟨StatsMap.empty.update 1 ⟨1, 5⟩, CpuMetrics.dflt, [], false⟩
          { (⟨some 2, some [(1, 3, 4)], none, none, none, true, some true⟩ :
              SysinfoThread.PassInput) with ctrl := none }).psAt 1 ∧
      (SysinfoThread.threadStep 100
        ⟨StatsMap.empty.update 1 ⟨1, 5⟩, CpuMetrics.dflt, [], false⟩
        ⟨some 2, some [(1, 3, 4)], none, none, none, true, some true⟩).sendThreadsAfter =
        some false) :=
  c8_toggle 100
    ⟨StatsMap.empty.update 1 ⟨1, 5⟩, CpuMetrics.dflt, [], false⟩
    ⟨some 2, some [(1, 3, 4)], none, none, none, true, some true⟩
    true 2 1 5 6 3 rfl rfl rfl

/-! ## `src/proc/meminfo.rs`

`MemInfo::parse` reads a meminfo file line by line (`read_lines` +
`map_while(io::Result::ok)`); the file content is embedded as the list of
its lines.  Rust strings are embedded as `List Char` so that the string
operations stay structurally computable; all quantities are `usize`
(64-bit). -/

namespace MeminfoRs

/-- Rust `str::split_once(':')`: split at the first colon, `None` when the
string has no colon. -/
def splitOnceColon : List Char → Option (List Char × List Char)
  | [] => none
  | c :: cs =>
    if c = ':' then some ([], cs)
    else
      match splitOnceColon cs with
      | some (k, v) => some (c :: k, v)
      | none => none

/-- Rust `str::trim` (whitespace from both ends). -/
def trim (s : List Char) : List Char :=
  ((s.dropWhile Char.isWhitespace).reverse.dropWhile Char.isWhitespace).reverse

/-- Rust `str::strip_suffix`. -/
def stripSuffix (s suf : List Char) : Option (List Char) :=
  if suf.length ≤ s.length ∧ s.drop (s.length - suf.length) = suf then
    some (s.take (s.length - suf.length))
  else none

/-- Accumulator loop of decimal parsing. -/
def digitsVal : List Char → Nat → Option Nat
  | [], acc => some acc
  | c :: rest, acc =>
      if c.isDigit then digitsVal rest (10 * acc + (c.toNat - 48)) else none

/-- Rust `str::parse::<usize>()` on a 64-bit target: decimal digits with an
optional leading `+`, nonempty, value below `2 ^ 64`. -/
def parseUsize (s : List Char) : Option Nat :=
  let s1 := match s with
    | '+' :: rest => rest
    | _ => s
  if s1.isEmpty then none
  else
    match digitsVal s1 0 with
    | some n => if n < U64 then some n else none
    | none => none

/-- The suffix `" kB"` stripped from every tracked value. -/
def kbSuffix : List Char := [' ', 'k', 'B']

/-- The per-value pipeline of `MemInfo::parse`:
`value.trim().strip_suffix(" kB")?.parse::<usize>()`. -/
def parseKb (value : List Char) : Option Nat :=
  (stripSuffix (trim value) kbSuffix).bind parseUsize

/-- Rust `struct MemInfo` (meminfo.rs lines 7-13). -/
structure MemInfo where
  mem_total : Nat
  mem_free : Nat
  swap_total : Nat
  swap_free : Nat
  deriving DecidableEq

/-- Value `MemInfo::default()` (all fields zero). -/
def MemInfo.dflt : MemInfo := ⟨0, 0, 0, 0⟩

def keyMemTotal : List Char := ['M', 'e', 'm', 'T', 'o', 't', 'a', 'l']
def keyMemFree : List Char := ['M', 'e', 'm', 'F', 'r', 'e', 'e']
def keySwapTotal : List Char := ['S', 'w', 'a', 'p', 'T', 'o', 't', 'a', 'l']
def keySwapFree : List Char := ['S', 'w', 'a', 'p', 'F', 'r', 'e', 'e']

/-- The loop of `MemInfo::parse` (meminfo.rs lines 20-67).  Rust's
`match key { "MemTotal" => .., "MemFree" => .., "SwapTotal" => ..,
"SwapFree" => .. break, _ => {} }` is the first-match chain written out;
errors carry the `Error::MemInfo` message.  The `* 1024` is a `usize`
multiplication (wrapping modulo `2 ^ 64` in release mode, panicking in
debug); the `break` after a parsed `SwapFree` returns the accumulator
without looking at any further line. -/
def parseLines : List (List Char) → MemInfo → Except String MemInfo
  | [], acc => .ok acc
  | line :: rest, acc =>
    if line.isEmpty then parseLines rest acc
    else
      match splitOnceColon line with
      | none => .error "Failed to parse memory info line"
      | some (key, value) =>
        if key = keyMemTotal then
          match parseKb value with
          | none => .error "Failed to parse MemTotal"
          | some n => parseLines rest { acc with mem_total := n * 1024 % U64 }
        else if key = keyMemFree then
          match parseKb value with
          | none => .error "Failed to parse MemFree"
          | some n => parseLines rest { acc with mem_free := n * 1024 % U64 }
        else if key = keySwapTotal then
          match parseKb value with
          | none => .error "Failed to parse SwapTotal"
          | some n => parseLines rest { acc with swap_total := n * 1024 % U64 }
        else if key = keySwapFree then
          match parseKb value with
          | none => .error "Failed to parse SwapFree"
          | some n => .ok { acc with swap_free := n * 1024 % U64 }
        else parseLines rest acc

/-- Function `MemInfo::parse` on a file given as its list of lines. -/
def parse (lines : List (List Char)) : Except String MemInfo :=
  parseLines lines MemInfo.dflt

/-- The parsed value, defaulting when the parse failed (used to state
field-level facts next to an `isOk` fact). -/
def parsedOr (lines : List (List Char)) : MemInfo :=
  (parse lines).toOption.getD MemInfo.dflt

/-- The key of a line, when it has one. -/
def lineKey (l : List Char) : Option (List Char) :=
  (splitOnceColon l).map Prod.fst

/-- The four keys `MemInfo::parse` tracks. -/
def trackedKeys : List (List Char) :=
  [keyMemTotal, keyMemFree, keySwapTotal, keySwapFree]

/-- A line `MemInfo::parse` gets through without an error: empty, or
`key: value` with a parseable ` kB` value whenever the key is tracked. -/
def wfLine (l : List Char) : Bool :=
  l.isEmpty ||
    match splitOnceColon l with
    | none => false
    | some (k, v) =>
      if k ∈ trackedKeys then (parseKb v).isSome else true

end MeminfoRs

-- sanity examples for the string machinery
example :
    MeminfoRs.splitOnceColon "MemTotal: 2 kB".toList =
      some ("MemTotal".toList, " 2 kB".toList) := by decide

example : MeminfoRs.parseKb " 2 kB".toList = some 2 := by decide

example :
    (MeminfoRs.parse ["MemTotal: 2 kB".toList, "Cached: 1 kB".toList]).toOption =
      some ⟨2048, 0, 0, 0⟩ := by decide

theorem keyMemFree_ne_keyMemTotal : MeminfoRs.keyMemFree ≠ MeminfoRs.keyMemTotal := by
  decide

theorem keySwapTotal_ne_keyMemTotal : MeminfoRs.keySwapTotal ≠ MeminfoRs.keyMemTotal := by
  decide

theorem keySwapTotal_ne_keyMemFree : MeminfoRs.keySwapTotal ≠ MeminfoRs.keyMemFree := by
  decide

theorem keySwapFree_ne_keyMemTotal : MeminfoRs.keySwapFree ≠ MeminfoRs.keyMemTotal := by
  decide

theorem keySwapFree_ne_keyMemFree : MeminfoRs.keySwapFree ≠ MeminfoRs.keyMemFree := by
  decide

theorem keySwapFree_ne_keySwapTotal : MeminfoRs.keySwapFree ≠ MeminfoRs.keySwapTotal := by
  decide

/-- Workhorse induction for `MemInfo::parse`: on well-formed lines the
loop returns `Ok`, and any tracked field with no matching line keeps its
accumulator value. -/
theorem memParseLines_wf (lines : List (List Char)) :
    ∀ acc : MeminfoRs.MemInfo, (∀ l ∈ lines, MeminfoRs.wfLine l = true) →
    ∃ m, MeminfoRs.parseLines lines acc = .ok m ∧
      ((∀ l ∈ lines, MeminfoRs.lineKey l ≠ some MeminfoRs.keyMemTotal) →
        m.mem_total = acc.mem_total) ∧
      ((∀ l ∈ lines, MeminfoRs.lineKey l ≠ some MeminfoRs.keyMemFree) →
        m.mem_free = acc.mem_free) ∧
      ((∀ l ∈ lines, MeminfoRs.lineKey l ≠ some MeminfoRs.keySwapTotal) →
        m.swap_total = acc.swap_total) ∧
      ((∀ l ∈ lines, MeminfoRs.lineKey l ≠ some MeminfoRs.keySwapFree) →
        m.swap_free = acc.swap_free) := by
  induction lines with
  | nil =>
    intro acc _
    exact ⟨acc, rfl, fun _ => rfl, fun _ => rfl, fun _ => rfl, fun _ => rfl⟩
  | cons l rest ih =>
    intro acc hwf
    have hwl := hwf l (List.mem_cons_self l rest)
    have hwr : ∀ x ∈ rest, MeminfoRs.wfLine x = true :=
      fun x hx => hwf x (List.mem_cons_of_mem l hx)
    by_cases he : l.isEmpty
    · obtain ⟨m, hm, h1, h2, h3, h4⟩ := ih acc hwr
      refine ⟨m, by simpa [MeminfoRs.parseLines, he] using hm,
        fun hk => h1 fun x hx => hk x (List.mem_cons_of_mem l hx),
        fun hk => h2 fun x hx => hk x (List.mem_cons_of_mem l hx),
        fun hk => h3 fun x hx => hk x (List.mem_cons_of_mem l hx),
        fun hk => h4 fun x hx => hk x (List.mem_cons_of_mem l hx)⟩
    · cases hsp : MeminfoRs.splitOnceColon l with
      | none =>
        exfalso
        unfold MeminfoRs.wfLine at hwl
        rw [hsp] at hwl
        simp [he] at hwl
      | some kv =>
        obtain ⟨k, v⟩ := kv
        have hlk : MeminfoRs.lineKey l = some k := by
          unfold MeminfoRs.lineKey
          rw [hsp]
          rfl
        have hvOf : k ∈ MeminfoRs.trackedKeys → ∃ n, MeminfoRs.parseKb v = some n := by
          intro hmem
          unfold MeminfoRs.wfLine at hwl
          rw [hsp] at hwl
          simp [he, hmem] at hwl
          exact Option.isSome_iff_exists.mp hwl
        by_cases hk1 : k = MeminfoRs.keyMemTotal
        · subst hk1
          obtain ⟨n, hn⟩ := hvOf (by simp [MeminfoRs.trackedKeys])
          obtain ⟨m, hm, h1, h2, h3, h4⟩ := ih { acc with mem_total := n * 1024 % U64 } hwr
          refine ⟨m, by simpa [MeminfoRs.parseLines, he, hsp, hn] using hm,
            fun hk => absurd hlk (hk l (List.mem_cons_self l rest)),
            fun hk => h2 fun x hx => hk x (List.mem_cons_of_mem l hx),
            fun hk => h3 fun x hx => hk x (List.mem_cons_of_mem l hx),
            fun hk => h4 fun x hx => hk x (List.mem_cons_of_mem l hx)⟩
        · by_cases hk2 : k = MeminfoRs.keyMemFree
          · subst hk2
            obtain ⟨n, hn⟩ := hvOf (by simp [MeminfoRs.trackedKeys])
            obtain ⟨m, hm, h1, h2, h3, h4⟩ := ih { acc with mem_free := n * 1024 % U64 } hwr
            refine ⟨m,
              by simpa [MeminfoRs.parseLines, he, hsp, hn,
                keyMemFree_ne_keyMemTotal] using hm,
              fun hk => h1 fun x hx => hk x (List.mem_cons_of_mem l hx),
              fun hk => absurd hlk (hk l (List.mem_cons_self l rest)),
              fun hk => h3 fun x hx => hk x (List.mem_cons_of_mem l hx),
              fun hk => h4 fun x hx => hk x (List.mem_cons_of_mem l hx)⟩
          · by_cases hk3 : k = MeminfoRs.keySwapTotal
            · subst hk3
              obtain ⟨n, hn⟩ := hvOf (by simp [MeminfoRs.trackedKeys])
              obtain ⟨m, hm, h1, h2, h3, h4⟩ :=
                ih { acc with swap_total := n * 1024 % U64 } hwr
              refine ⟨m,
                by simpa [MeminfoRs.parseLines, he, hsp, hn,
                  keySwapTotal_ne_keyMemTotal, keySwapTotal_ne_keyMemFree] using hm,
                fun hk => h1 fun x hx => hk x (List.mem_cons_of_mem l hx),
                fun hk => h2 fun x hx => hk x (List.mem_cons_of_mem l hx),
                fun hk => absurd hlk (hk l (List.mem_cons_self l rest)),
                fun hk => h4 fun x hx => hk x (List.mem_cons_of_mem l hx)⟩
            · by_cases hk4 : k = MeminfoRs.keySwapFree
              · subst hk4
                obtain ⟨n, hn⟩ := hvOf (by simp [MeminfoRs.trackedKeys])
                refine ⟨{ acc with swap_free := n * 1024 % U64 },
                  by simp [MeminfoRs.parseLines, he, hsp, hn,
                    keySwapFree_ne_keyMemTotal, keySwapFree_ne_keyMemFree,
                    keySwapFree_ne_keySwapTotal],
                  fun _ => rfl, fun _ => rfl, fun _ => rfl,
                  fun hk => absurd hlk (hk l (List.mem_cons_self l rest))⟩
              · obtain ⟨m, hm, h1, h2, h3, h4⟩ := ih acc hwr
                refine ⟨m,
                  by simpa [MeminfoRs.parseLines, he, hsp, hk1, hk2, hk3, hk4] using hm,
                  fun hk => h1 fun x hx => hk x (List.mem_cons_of_mem l hx),
                  fun hk => h2 fun x hx => hk x (List.mem_cons_of_mem l hx),
                  fun hk => h3 fun x hx => hk x (List.mem_cons_of_mem l hx),
                  fun hk => h4 fun x hx => hk x (List.mem_cons_of_mem l hx)⟩

/-! ## Claim C10 — `MemInfo::parse` tolerance and early stop -/

/-- C10: `MemInfo::parse` returns `Ok` on any input of well-formed lines
even when tracked keys are absent — a field with no matching line keeps
its zero default, a present value is converted from kB by `* 1024` — and
a parsed `SwapFree` line stops the loop, so the lines after it (here an
arbitrary `junk`, allowed to be malformed) are never examined and cannot
cause an error. -/
theorem c10_meminfo_parse
    (lines junk : List (List Char)) (l1 l2 l3 l4 v1 v2 v3 v4 : List Char)
    (n1 n2 n3 n4 : Nat)
    (hwf : ∀ l ∈ lines, MeminfoRs.wfLine l = true)
    (hne1 : l1.isEmpty = false)
    (hsp1 : MeminfoRs.splitOnceColon l1 = some (MeminfoRs.keyMemTotal, v1))
    (hv1 : MeminfoRs.parseKb v1 = some n1) (hb1 : n1 * 1024 < U64)
    (hne2 : l2.isEmpty = false)
    (hsp2 : MeminfoRs.splitOnceColon l2 = some (MeminfoRs.keyMemFree, v2))
    (hv2 : MeminfoRs.parseKb v2 = some n2) (hb2 : n2 * 1024 < U64)
    (hne3 : l3.isEmpty = false)
    (hsp3 : MeminfoRs.splitOnceColon l3 = some (MeminfoRs.keySwapTotal, v3))
    (hv3 : MeminfoRs.parseKb v3 = some n3) (hb3 : n3 * 1024 < U64)
    (hne4 : l4.isEmpty = false)
    (hsp4 : MeminfoRs.splitOnceColon l4 = some (MeminfoRs.keySwapFree, v4))
    (hv4 : MeminfoRs.parseKb v4 = some n4) (hb4 : n4 * 1024 < U64) :
    (MeminfoRs.parse lines).isOk = true ∧
    ((∀ l ∈ lines, MeminfoRs.lineKey l ≠ some MeminfoRs.keyMemTotal) →
      (MeminfoRs.parsedOr lines).mem_total = 0) ∧
    ((∀ l ∈ lines, MeminfoRs.lineKey l ≠ some MeminfoRs.keyMemFree) →
      (MeminfoRs.parsedOr lines).mem_free = 0) ∧
    ((∀ l ∈ lines, MeminfoRs.lineKey l ≠ some MeminfoRs.keySwapTotal) →
      (MeminfoRs.parsedOr lines).swap_total = 0) ∧
    ((∀ l ∈ lines, MeminfoRs.lineKey l ≠ some MeminfoRs.keySwapFree) →
      (MeminfoRs.parsedOr lines).swap_free = 0) ∧
    MeminfoRs.parse (l1 :: l2 :: l3 :: l4 :: junk) =
      .ok ⟨n1 * 1024, n2 * 1024, n3 * 1024, n4 * 1024⟩ := by
  obtain ⟨m, hm, h1, h2, h3, h4⟩ := memParseLines_wf lines MeminfoRs.MemInfo.dflt hwf
  have hp : MeminfoRs.parse lines = .ok m := hm
  refine ⟨?_, ?_, ?_, ?_, ?_, ?_⟩
  · rw [hp]
    rfl
  · intro hk
    unfold MeminfoRs.parsedOr
    rw [hp]
    exact h1 hk
  · intro hk
    unfold MeminfoRs.parsedOr
    rw [hp]
    exact h2 hk
  · intro hk
    unfold MeminfoRs.parsedOr
    rw [hp]
    exact h3 hk
  · intro hk
    unfold MeminfoRs.parsedOr
    rw [hp]
    exact h4 hk
  · unfold MeminfoRs.parse
    simp [MeminfoRs.parseLines, hne1, hsp1, hv1, hne2, hsp2, hv2,
      hne3, hsp3, hv3, hne4, hsp4, hv4,
      keyMemFree_ne_keyMemTotal, keySwapTotal_ne_keyMemTotal,
      keySwapTotal_ne_keyMemFree, keySwapFree_ne_keyMemTotal,
      keySwapFree_ne_keyMemFree, keySwapFree_ne_keySwapTotal,
      MeminfoRs.MemInfo.dflt,
      Nat.mod_eq_of_lt hb1, Nat.mod_eq_of_lt hb2,
      Nat.mod_eq_of_lt hb3, Nat.mod_eq_of_lt hb4]

/-- Witness for C10: a well-formed input with only untracked keys parses
to `Ok` with all-zero fields, and a four-line meminfo followed by a
malformed junk line parses to the kB-converted fields with the junk line
never examined. -/
theorem c10_meminfo_parse_witness :
    (MeminfoRs.parse ["Buddy: whatever".toList, "".toList]).isOk = true ∧
    MeminfoRs.parse
      ["MemTotal: 2 kB".toList, "MemFree: 1 kB".toList, "SwapTotal: 4 kB".toList,
       "SwapFree: 3 kB".toList, "no colon here !!".toList] =
      .ok ⟨2 * 1024, 1 * 1024, 4 * 1024, 3 * 1024⟩ := by
  have h := c10_meminfo_parse ["Buddy: whatever".toList, "".toList]
    ["no colon here !!".toList]
    "MemTotal: 2 kB".toList "MemFree: 1 kB".toList "SwapTotal: 4 kB".toList
    "SwapFree: 3 kB".toList
    " 2 kB".toList " 1 kB".toList " 4 kB".toList " 3 kB".toList
    2 1 4 3
    (by decide) (by decide) (by decide) (by decide) (by decide)
    (by decide) (by decide) (by decide) (by decide) (by decide)
    (by decide) (by decide) (by decide) (by decide) (by decide)
    (by decide) (by decide)
  exact ⟨h.1, h.2.2.2.2.2⟩
